import Mathlib

/-!
# Verification of the Vajra network scanner core

A shallow embedding, in Lean 4, of the probe-engine parts of the Vajra
network scanner (a Rust program), together with theorems settling the
specification claims about it.

Modelling conventions:
* Rust machine integers (`u8`, `u16`, `u32`, `u64`, `usize`, `u128`) are
  modelled as `Nat`, with explicit `% 2^w` or saturation where the source
  performs wrapping or saturating arithmetic.
* Rust `Duration` values are modelled as a `Nat` number of nanoseconds
  (`Duration::ZERO` is `0`).
* Rust byte buffers and strings are modelled as `List Nat` (bytes) and
  `List Char` (ASCII text) respectively.
* Fallible code returns `Option` or `Except`; a Rust slice-indexing panic is
  modelled by the `Except` error case of a checked access.
* Wall-clock timestamps (`SystemTime`), raw sockets and the `f32`
  `confidence` field are not modelled: no claim depends on them.
-/

set_option maxHeartbeats 1000000
set_option linter.unusedVariables false

set_option maxRecDepth 100000

set_option synthInstance.maxSize 1000

deriving instance DecidableEq for Except

namespace Vajra

/-! ## Data model (crates/common/src/types.rs) -/

/-- Port states returned by probes (`common/src/types.rs`, `enum PortState`). -/
inductive PortState where
  | Open
  | Closed
  | Filtered
  | OpenFiltered

deriving DecidableEq, Repr

/-- Supported protocols (`common/src/types.rs`, `enum Protocol`). -/
inductive Protocol where
  | TCP
  | UDP

deriving DecidableEq, Repr

/-- IP addresses (`std::net::IpAddr`): four octets for v4, sixteen bytes for
v6.  Octets are `Nat`s intended to be `< 256`. -/
inductive IpAddr where
  | v4 (a b c d : Nat)
  | v6 (bytes : List Nat)

deriving DecidableEq, Repr

/-- A scan target (`common/src/types.rs`, `struct Target`). -/
structure Target where
  ip : IpAddr
  port : Nat
  protocol : Protocol

deriving DecidableEq, Repr

/-- `Target::new` defaults the protocol to TCP. -/
def Target.new (ip : IpAddr) (port : Nat) : Target :=
  { ip := ip, port := port, protocol := Protocol.TCP }

/-- Matched service information (`common/src/types.rs`, `struct ServiceMatch`).
The `f32` confidence field is not modelled (floating point; no claim uses it). -/
structure ServiceMatch where
  service : List Char
  product : Option (List Char)
  version : Option (List Char)

deriving DecidableEq, Repr

/-- `ServiceMatch::new`: product and version start absent. -/
def ServiceMatch.new (service : List Char) : ServiceMatch :=
  { service := service, product := none, version := none }

/-- `ServiceMatch::with_product`. -/
def ServiceMatch.with_product (m : ServiceMatch) (p : List Char) : ServiceMatch :=
  { m with product := some p }

/-- `ServiceMatch::with_version`. -/
def ServiceMatch.with_version (m : ServiceMatch) (v : List Char) : ServiceMatch :=
  { m with version := some v }

/-- Result of probing a single target (`common/src/types.rs`,
`struct ProbeResult`).  `rtt` is in nanoseconds; the wall-clock `timestamp`
field is not modelled. -/
structure ProbeResult where
  target : Target
  state : PortState
  banner : Option (List Char)
  service : Option ServiceMatch
  rtt : Nat

deriving DecidableEq, Repr

/-- `ProbeResult::new`: fresh result with zero RTT, no banner, no service. -/
def ProbeResult.new (target : Target) (state : PortState) : ProbeResult :=
  { target := target, state := state, banner := none, service := none, rtt := 0 }

/-- `ProbeResult::with_rtt`. -/
def ProbeResult.with_rtt (r : ProbeResult) (rtt : Nat) : ProbeResult :=
  { r with rtt := rtt }

/-- `ProbeResult::with_banner`. -/
def ProbeResult.with_banner (r : ProbeResult) (b : List Char) : ProbeResult :=
  { r with banner := some b }

/-- `ProbeResult::with_service`. -/
def ProbeResult.with_service (r : ProbeResult) (s : ServiceMatch) : ProbeResult :=
  { r with service := some s }

/-! ## Saturating machine arithmetic -/

/-- Largest `usize` value on the 64-bit targets the scanner runs on. -/
def USIZE_MAX : Nat := 2 ^ 64 - 1

/-- Largest `u128` value. -/
def U128_MAX : Nat := 2 ^ 128 - 1

/-- `usize::saturating_add`. -/
def satAdd (a b : Nat) : Nat := min (a + b) USIZE_MAX

/-- `u128::saturating_add`. -/
def satAdd128 (a b : Nat) : Nat := min (a + b) U128_MAX

/-- `u128::saturating_mul`. -/
def satMul128 (a b : Nat) : Nat := min (a * b) U128_MAX

/-! ## Scan statistics (crates/common/src/types.rs, `ScanStats`) -/

/-- Running scan statistics (`common/src/types.rs`, `struct ScanStats`).
Durations (`average_rtt`, `elapsed`) are nanosecond counts. -/
structure ScanStats where
  total_targets : Nat
  scanned : Nat
  open_ports : Nat
  closed_ports : Nat
  filtered_ports : Nat
  errors : Nat
  average_rtt : Nat
  elapsed : Nat

deriving DecidableEq, Repr

/-- `ScanStats::new(total_targets)`: all counters zero. -/
def ScanStats.new (total : Nat) : ScanStats :=
  { total_targets := total, scanned := 0, open_ports := 0, closed_ports := 0,
    filtered_ports := 0, errors := 0, average_rtt := 0, elapsed := 0 }

/-- `ScanStats::update` (`common/src/types.rs:402-424`): bump `scanned` and the
counter matching the result state (`Filtered` and `OpenFiltered` both go to
`filtered_ports`), then fold the RTT into the rolling average with `u128`
saturating arithmetic; the final `as u64` cast truncates modulo `2^64`. -/
def ScanStats.update (s : ScanStats) (result : ProbeResult) : ScanStats :=
  let scanned := satAdd s.scanned 1
  let s1 : ScanStats :=
    match result.state with
    | PortState.Open => { s with scanned := scanned, open_ports := satAdd s.open_ports 1 }
    | PortState.Closed => { s with scanned := scanned, closed_ports := satAdd s.closed_ports 1 }
    | PortState.Filtered =>
        { s with scanned := scanned, filtered_ports := satAdd s.filtered_ports 1 }
    | PortState.OpenFiltered =>
        { s with scanned := scanned, filtered_ports := satAdd s.filtered_ports 1 }
  let n := s1.scanned
  if n = 1 then
    { s1 with average_rtt := result.rtt }
  else
    { s1 with average_rtt :=
        satAdd128 (satMul128 s1.average_rtt (n - 1)) result.rtt / n % 2 ^ 64 }

/-! ## TCP flags and SYN response classification (scanner_syn) -/

namespace tcp_flags

/-- `packet.rs` `tcp_flags::FIN`. -/
def FIN : Nat := 0x01

/-- `packet.rs` `tcp_flags::SYN`. -/
def SYN : Nat := 0x02

/-- `packet.rs` `tcp_flags::RST`. -/
def RST : Nat := 0x04

/-- `packet.rs` `tcp_flags::PSH`. -/
def PSH : Nat := 0x08

/-- `packet.rs` `tcp_flags::ACK`. -/
def ACK : Nat := 0x10

/-- `packet.rs` `tcp_flags::URG`. -/
def URG : Nat := 0x20

end tcp_flags

/-- `scanner_syn/src/syn.rs:297-306`, `classify_response`: SYN and ACK both
set means open, else RST set means closed, else filtered. -/
def classify_response (flags : Nat) : PortState :=
  if flags &&& tcp_flags.SYN ≠ 0 ∧ flags &&& tcp_flags.ACK ≠ 0 then
    PortState.Open
  else if flags &&& tcp_flags.RST ≠ 0 then
    PortState.Closed
  else
    PortState.Filtered

/-! ## Packet codec (scanner_syn/src/packet.rs) -/

/-- Big-endian byte pair of a `u16` (`u16::to_be_bytes`). -/
def be16 (x : Nat) : List Nat := [x / 256 % 256, x % 256]

/-- Big-endian byte quadruple of a `u32` (`u32::to_be_bytes`). -/
def be32 (x : Nat) : List Nat :=
  [x / 16777216 % 256, x / 65536 % 256, x / 256 % 256, x % 256]

/-- The 16-bit big-endian word sum of a byte sequence, odd tail padded low
(the summation loop shared by `checksum`, `tcp_checksum_v4`,
`tcp_checksum_v6` in `packet.rs`). -/
def sumWords : List Nat → Nat
  | b0 :: b1 :: rest => b0 * 256 + b1 + sumWords rest
  | [b] => b * 256
  | [] => 0

/-- One end-around-carry step: low 16 bits plus the carry above them. -/
def foldStep (s : Nat) : Nat := s % 65536 + s / 65536

/-- Fuelled form of the `while sum >> 16 != 0` end-around-carry loop of
`packet.rs`.  Each iteration on `s ≥ 65536` strictly decreases `s`, so any
fuel of at least the starting value runs the loop to completion. -/
def foldCarryFuel : Nat → Nat → Nat
  | 0, s => s
  | fuel + 1, s => if s < 65536 then s else foldCarryFuel fuel (foldStep s)

/-- The `while sum >> 16 != 0` end-around-carry loop of `packet.rs`, with
provably sufficient fuel; `foldCarry_unfold` below shows it satisfies the
loop equation. -/
def foldCarry (s : Nat) : Nat := foldCarryFuel s s

/-- `packet.rs:229-247`, `checksum`: one's-complement of the folded 16-bit
word sum (`!sum as u16`). -/
def checksum (data : List Nat) : Nat := 65535 - foldCarry (sumWords data)

/-- `packet.rs:251-280`, `tcp_checksum_v4`: the pseudo-header loop adds every
source and destination address byte shifted into the high octet
(`sum += (byte as u32) << 8`), then protocol 6, then the TCP length, then the
16-bit word sum of the TCP segment. -/
def tcp_checksum_v4 (s0 s1 s2 s3 d0 d1 d2 d3 : Nat) (tcpData : List Nat) : Nat :=
  65535 - foldCarry
    ((s0 + s1 + s2 + s3 + d0 + d1 + d2 + d3) * 256 + 6 + tcpData.length + sumWords tcpData)

/-- `packet.rs:284-313`, `tcp_checksum_v6`: same shape as the v4 variant, all
32 address bytes shifted into the high octet, then the TCP length, then 6. -/
def tcp_checksum_v6 (src dst : List Nat) (tcpData : List Nat) : Nat :=
  65535 - foldCarry
    ((src.sum + dst.sum) * 256 + tcpData.length + 6 + sumWords tcpData)

/-- The 20-byte TCP SYN header written by both builders in `packet.rs`:
ports, sequence, ACK 0, data offset 5, flags SYN, window 65535, checksum
`ck`, urgent pointer 0. -/
def tcpSynHeader (srcPort dstPort seq ck : Nat) : List Nat :=
  be16 srcPort ++ be16 dstPort ++ be32 seq ++ be32 0 ++
    [0x50, tcp_flags.SYN] ++ be16 65535 ++ be16 ck ++ [0, 0]

/-- The 20-byte IPv4 header written by `build_ipv4_syn`: version 4, IHL 5,
total length 40, identification `ident` (random in the source, a parameter
here), DF flag, TTL 64, protocol 6, checksum `ck`, then the addresses. -/
def ipv4Header (s0 s1 s2 s3 d0 d1 d2 d3 ident ck : Nat) : List Nat :=
  [0x45, 0x00] ++ be16 40 ++ be16 ident ++ be16 0x4000 ++ [64, 6] ++ be16 ck ++
    [s0, s1, s2, s3] ++ [d0, d1, d2, d3]

/-- `packet.rs:49-93`, `build_ipv4_syn`: writes nothing (returns 0) when the
buffer is under 40 bytes; otherwise emits the IPv4 header with its checksum
computed over the zero-checksum header, followed by the TCP header with its
checksum computed over the zero-checksum segment. -/
def build_ipv4_syn (bufLen : Nat) (s0 s1 s2 s3 d0 d1 d2 d3 srcPort dstPort seq ident : Nat) :
    List Nat :=
  if bufLen < 40 then [] else
    ipv4Header s0 s1 s2 s3 d0 d1 d2 d3 ident
      (checksum (ipv4Header s0 s1 s2 s3 d0 d1 d2 d3 ident 0)) ++
    tcpSynHeader srcPort dstPort seq
      (tcp_checksum_v4 s0 s1 s2 s3 d0 d1 d2 d3 (tcpSynHeader srcPort dstPort seq 0))

/-- `packet.rs:97-132`, `build_ipv6_syn`: requires 60 buffer bytes; emits the
40-byte IPv6 header (version 6, payload length 20, next header 6, hop limit
64) and the TCP header with the v6 pseudo-header checksum. -/
def build_ipv6_syn (bufLen : Nat) (src dst : List Nat) (srcPort dstPort seq : Nat) : List Nat :=
  if bufLen < 60 then [] else
    [0x60, 0, 0, 0] ++ be16 20 ++ [6, 64] ++ src ++ dst ++
    tcpSynHeader srcPort dstPort seq
      (tcp_checksum_v6 src dst (tcpSynHeader srcPort dstPort seq 0))

/-- `packet.rs:28-45`, `build_syn_packet`: dispatch on the address versions;
mixed versions write nothing (return 0).  `bufLen` is the length of the
caller-provided buffer and `ident` models the random IPv4 identification. -/
def build_syn_packet (bufLen : Nat) (src dst : IpAddr) (srcPort dstPort seq ident : Nat) :
    List Nat :=
  match src, dst with
  | IpAddr.v4 a b c d, IpAddr.v4 a2 b2 c2 d2 =>
      build_ipv4_syn bufLen a b c d a2 b2 c2 d2 srcPort dstPort seq ident
  | IpAddr.v6 s, IpAddr.v6 d => build_ipv6_syn bufLen s d srcPort dstPort seq
  | _, _ => []

/-! ### Parsing

Rust slice indexing panics when out of bounds; the embedding makes every
access checked, with `Except.error ()` standing for a panic.  A proof that a
parse function never returns `Except.error` is a proof that the original
never panics. -/

/-- Checked byte access: `buf[i]`, panicking (erroring) out of bounds. -/
def idx (buf : List Nat) (i : Nat) : Except Unit Nat :=
  if i < buf.length then Except.ok (buf.getD i 0) else Except.error ()

/-- Checked suffix slice: `&buf[start..]`, panicking when `start > len`. -/
def sliceFrom (buf : List Nat) (start : Nat) : Except Unit (List Nat) :=
  if start ≤ buf.length then Except.ok (buf.drop start) else Except.error ()

/-- Parse output `(src_ip, src_port, dst_ip, dst_port, tcp_flags,
payload_offset, payload_len)`. -/
abbrev ParseResult := IpAddr × Nat × IpAddr × Nat × Nat × Nat × Nat

/-- `packet.rs:152-187`, `parse_ipv4_packet`. -/
def parse_ipv4_packet (buf : List Nat) : Except Unit (Option ParseResult) := do
  if buf.length < 40 then return none
  let b0 ← idx buf 0
  let ihl := b0 % 16 * 4
  if buf.length < ihl + 20 then return none
  let protocol ← idx buf 9
  if protocol ≠ 6 then return none
  let s0 ← idx buf 12
  let s1 ← idx buf 13
  let s2 ← idx buf 14
  let s3 ← idx buf 15
  let d0 ← idx buf 16
  let d1 ← idx buf 17
  let d2 ← idx buf 18
  let d3 ← idx buf 19
  let tcp ← sliceFrom buf ihl
  if tcp.length < 20 then return none
  let t0 ← idx tcp 0
  let t1 ← idx tcp 1
  let t2 ← idx tcp 2
  let t3 ← idx tcp 3
  let flags ← idx tcp 13
  let t12 ← idx tcp 12
  let dataOffset := t12 / 16 * 4
  let payloadOffset := ihl + dataOffset
  return some (IpAddr.v4 s0 s1 s2 s3, t0 * 256 + t1, IpAddr.v4 d0 d1 d2 d3,
    t2 * 256 + t3, flags, payloadOffset, buf.length - payloadOffset)

/-- `packet.rs:190-225`, `parse_ipv6_packet`. -/
def parse_ipv6_packet (buf : List Nat) : Except Unit (Option ParseResult) := do
  if buf.length < 60 then return none
  let nextHeader ← idx buf 6
  if nextHeader ≠ 6 then return none
  let s0 ← idx buf 8
  let s1 ← idx buf 9
  let s2 ← idx buf 10
  let s3 ← idx buf 11
  let s4 ← idx buf 12
  let s5 ← idx buf 13
  let s6 ← idx buf 14
  let s7 ← idx buf 15
  let s8 ← idx buf 16
  let s9 ← idx buf 17
  let s10 ← idx buf 18
  let s11 ← idx buf 19
  let s12 ← idx buf 20
  let s13 ← idx buf 21
  let s14 ← idx buf 22
  let s15 ← idx buf 23
  let d0 ← idx buf 24
  let d1 ← idx buf 25
  let d2 ← idx buf 26
  let d3 ← idx buf 27
  let d4 ← idx buf 28
  let d5 ← idx buf 29
  let d6 ← idx buf 30
  let d7 ← idx buf 31
  let d8 ← idx buf 32
  let d9 ← idx buf 33
  let d10 ← idx buf 34
  let d11 ← idx buf 35
  let d12 ← idx buf 36
  let d13 ← idx buf 37
  let d14 ← idx buf 38
  let d15 ← idx buf 39
  let tcp ← sliceFrom buf 40
  if tcp.length < 20 then return none
  let t0 ← idx tcp 0
  let t1 ← idx tcp 1
  let t2 ← idx tcp 2
  let t3 ← idx tcp 3
  let flags ← idx tcp 13
  let t12 ← idx tcp 12
  let dataOffset := t12 / 16 * 4
  let payloadOffset := 40 + dataOffset
  return some
    (IpAddr.v6 [s0, s1, s2, s3, s4, s5, s6, s7, s8, s9, s10, s11, s12, s13, s14, s15],
     t0 * 256 + t1,
     IpAddr.v6 [d0, d1, d2, d3, d4, d5, d6, d7, d8, d9, d10, d11, d12, d13, d14, d15],
     t2 * 256 + t3, flags, payloadOffset, buf.length - payloadOffset)

/-- `packet.rs:136-149`, `parse_packet`: length gate, then dispatch on the
version nibble. -/
def parse_packet (buf : List Nat) : Except Unit (Option ParseResult) := do
  if buf.length < 40 then return none
  let b0 ← idx buf 0
  let version := b0 / 16
  if version = 4 then parse_ipv4_packet buf
  else if version = 6 then parse_ipv6_packet buf
  else return none

/-- Modelled from the spec: §4.3 defines *Checksum* as the standard 16-bit
one's-complement sum with end-around carry, and the TCP checksum as taken
"over the IPv4 pseudo-header (source, destination, zero byte, protocol 6,
TCP length) and the TCP segment".  This is that standard verification sum:
the pseudo-header laid out as bytes, followed by the segment, summed as
16-bit big-endian words and complemented.  A checksum verifies when this
value is zero. -/
def spec_tcp_pseudo_checksum_v4 (s0 s1 s2 s3 d0 d1 d2 d3 : Nat) (tcpData : List Nat) : Nat :=
  65535 - foldCarry (sumWords
    ([s0, s1, s2, s3] ++ [d0, d1, d2, d3] ++ [0, 6] ++ be16 tcpData.length ++ tcpData))

/-- The SYN packet built for source 192.0.2.1:40000, destination
198.51.100.2:443, sequence 0x12345678, identification 0x1234, in a 60-byte
buffer. -/
def bugPacket : List Nat :=
  build_syn_packet 60 (IpAddr.v4 192 0 2 1) (IpAddr.v4 198 51 100 2) 40000 443 305419896 4660

/-! ## SYN prober single-probe settlement (scanner_syn/src/syn.rs) -/

/-- `scanner_syn/src/error.rs`, `enum SynError` (payload strings dropped). -/
inductive SynError where
  | NotPermitted
  | Io
  | Timeout
  | Capture
  | NotImplemented
  | InvalidTarget

deriving DecidableEq, Repr

/-- `capture.rs:21`: pending-probe key `(dst_ip, dst_port, src_port, seq)`. -/
abbrev PendingKey := IpAddr × Nat × Nat × Nat

/-- `capture.rs:25-29`, `struct CaptureResponse`; times in nanoseconds. -/
structure CaptureResponse where
  flags : Nat
  rtt : Nat
  recv_time : Nat

deriving DecidableEq, Repr

/-- The pending-probe table (`PENDING_PROBES`) as a map from keys to the
registered start instant; the one-shot sender is not modelled. -/
def PendingTable := PendingKey → Option Nat

/-- `DashMap::insert` on the pending table. -/
def pendingInsert (t : PendingTable) (k : PendingKey) (start : Nat) : PendingTable :=
  fun x => if x = k then some start else t x

/-- `DashMap::remove` on the pending table (idempotent: removing an absent
key changes nothing). -/
def pendingRemove (t : PendingTable) (k : PendingKey) : PendingTable :=
  fun x => if x = k then none else t x

/-- The three ways `timeout(timeout_duration, rx).await` can settle in
`probe_one` (`syn.rs:237`): a delivered capture response (`Ok(Ok(_))`), a
dropped sender (`Ok(Err(_))`), or expiry of the timeout (`Err(_)`). -/
inductive AwaitOutcome where
  | delivered (resp : CaptureResponse)
  | channelClosed
  | timedOut

deriving DecidableEq, Repr

/-- `syn.rs:237-252`: how `probe_one` settles once its channel await
resolves, given the pending table at that moment.  Returns the new pending
table and the probe outcome.  On delivery the flags are classified and the
capture-measured RTT attached; on a closed channel a capture error is
returned; on timeout the result is `Filtered` built by `ProbeResult::new`
(zero RTT) with no `with_rtt` call.  All three paths remove the key.
`timeoutDur` is the caller-specified timeout, unused by every branch. -/
def probe_one_settle (target : Target) (timeoutDur : Nat) (key : PendingKey)
    (pending : PendingTable) (outcome : AwaitOutcome) :
    PendingTable × Except SynError ProbeResult :=
  match outcome with
  | AwaitOutcome.delivered resp =>
      (pendingRemove pending key,
        Except.ok ((ProbeResult.new target (classify_response resp.flags)).with_rtt resp.rtt))
  | AwaitOutcome.channelClosed =>
      (pendingRemove pending key, Except.error SynError.Capture)
  | AwaitOutcome.timedOut =>
      (pendingRemove pending key, Except.ok (ProbeResult.new target PortState.Filtered))

/-! ## Connect prober failure classification (scanner_tcp/src/scanner.rs) -/

/-- `std::io::ErrorKind` restricted to the kinds `TcpScanner::scan`
distinguishes; every other kind is `other`. -/
inductive IoErrorKind where
  | connectionRefused
  | timedOut
  | wouldBlock
  | other

deriving DecidableEq, Repr

/-- `scanner_tcp/src/scanner.rs:179-222`: the port-state classification of a
failed connect.  `ioKind` is the kind of the first `std::io::Error` found in
the error chain (`none` when the chain has no IO error); `msgRefused` and
`msgTimeout` are `err_str.contains("refused")` and
`err_str.contains("timeout")` on the lower-cased error text; `rtt` and
`timeout` are in nanoseconds.  The source spells out the string/RTT cascade
twice — once as the `_` arm of the `ErrorKind` match and once for the
no-IO-error case — with identical text; the shared `fallback` here is that
common cascade. -/
def classify_connect_failure (ioKind : Option IoErrorKind) (msgRefused msgTimeout : Bool)
    (rtt timeout : Nat) : PortState :=
  let fallback :=
    if msgRefused then PortState.Closed
    else if msgTimeout ∨ timeout ≤ rtt then PortState.Filtered
    else if rtt < 100000000 then PortState.Closed
    else PortState.Filtered
  match ioKind with
  | some IoErrorKind.connectionRefused => PortState.Closed
  | some IoErrorKind.timedOut => PortState.Filtered
  | some _ => fallback
  | none => fallback

/-! ## Pending-key lifecycle (syn.rs / capture.rs)

The pending-probe table is a concurrent map; for one probe's key the
relevant atomic events are its single insertion (`syn.rs:222`, before the
send) and the removal attempts of the three removers: the capture matcher on
a matching response (`capture.rs:179`), the waiting prober when its await
settles — all three branches of `syn.rs:237-252` call remove — and the
periodic expiry sweep (`capture.rs:212-227`).  `DashMap::remove` is atomic
and idempotent: it removes and returns the entry only when the key is still
present.  A trace is any interleaving of these events. -/

/-- Atomic pending-table events for one probe key. -/
inductive ProbeEvent where
  | insert
  | captureRemove
  | waiterRemove
  | sweepRemove

deriving DecidableEq, Repr

/-- State of one key: whether it is in the table, and how many removal
attempts actually removed it (`DashMap::remove` returned the entry). -/
structure KeyState where
  present : Bool
  removals : Nat

deriving DecidableEq, Repr

/-- Effect of one event: insertion puts the key in the table; each remover
removes it only if it is still present (atomic check-and-remove). -/
def stepEvent (s : KeyState) (e : ProbeEvent) : KeyState :=
  match e with
  | ProbeEvent.insert => { present := true, removals := s.removals }
  | _ => if s.present then { present := false, removals := s.removals + 1 } else s

/-- Run a trace of events from a starting key state. -/
def runEvents (s : KeyState) (es : List ProbeEvent) : KeyState :=
  es.foldl stepEvent s

/-! ## String primitives

Rust `&str` values are modelled as `List Char` of ASCII characters (every
string any claim touches is ASCII, so byte indices and character indices
agree and `as_bytes` is `map Char.toNat`). -/

/-- ASCII lowercasing of one character (agrees with Rust `to_lowercase` on
ASCII input). -/
def asciiToLower (c : Char) : Char :=
  if 'A' ≤ c ∧ c ≤ 'Z' then Char.ofNat (c.toNat + 32) else c

/-- `str::to_lowercase` on ASCII text. -/
def toLowerStr (cs : List Char) : List Char := cs.map asciiToLower

/-- `str::starts_with`. -/
def startsWithStr (cs pre : List Char) : Bool := pre.isPrefixOf cs

/-- `str::contains` (substring search). -/
def containsStr (hay needle : List Char) : Bool :=
  match hay with
  | [] => needle.isEmpty
  | c :: t => needle.isPrefixOf (c :: t) || containsStr t needle

/-- `str::find` for a substring: index of the first occurrence. -/
def findSub (hay needle : List Char) : Option Nat :=
  match hay with
  | [] => if needle.isEmpty then some 0 else none
  | c :: t =>
      if needle.isPrefixOf (c :: t) then some 0
      else (findSub t needle).map (· + 1)

/-- `str::find` for a character predicate. -/
def findCharIdx (cs : List Char) (p : Char → Bool) : Option Nat :=
  match cs with
  | [] => none
  | c :: t => if p c then some 0 else (findCharIdx t p).map (· + 1)

/-- ASCII whitespace, as trimmed by Rust `str::trim` and split by
`split_whitespace` on the inputs at hand. -/
def isWsCh (c : Char) : Bool :=
  c == ' ' || c == '\t' || c == '\n' || c == '\r' || c == '\x0b' || c == '\x0c'

/-- `str::trim`. -/
def trimChars (cs : List Char) : List Char :=
  ((cs.dropWhile isWsCh).reverse.dropWhile isWsCh).reverse

/-- `str::split(sep)`: splits at every separator, keeping empty pieces
(`"".split(sep)` yields one empty piece). -/
def splitOnChar (sep : Char) : List Char → List (List Char)
  | [] => [[]]
  | c :: t =>
      let r := splitOnChar sep t
      if c = sep then [] :: r
      else
        match r with
        | [] => [[c]]
        | h :: rt => (c :: h) :: rt

/-- `str::split_whitespace`: like splitting on whitespace with empty pieces
discarded. -/
def splitWs (cs : List Char) : List (List Char) :=
  (splitOnChar ' ' (cs.map (fun c => if isWsCh c then ' ' else c))).filter (· ≠ [])

/-- Numeric value of an ASCII digit. -/
def digitVal (c : Char) : Option Nat :=
  if '0' ≤ c ∧ c ≤ '9' then some (c.toNat - 48) else none

/-- Accumulate decimal digits; fails on any non-digit. -/
def parseDigitsAux (acc : Nat) : List Char → Option Nat
  | [] => some acc
  | c :: t =>
      match digitVal c with
      | some d => parseDigitsAux (acc * 10 + d) t
      | none => none

/-- `str::parse::<u16>`: an optional leading `+`, then one or more ASCII
digits, value at most 65535; anything else is an error. -/
def parseU16 (cs : List Char) : Option Nat :=
  let body := match cs with
    | '+' :: t => t
    | _ => cs
  match body with
  | [] => none
  | _ =>
      match parseDigitsAux 0 body with
      | some v => if v ≤ 65535 then some v else none
      | none => none

/-! ## Port-range parser (cli/src/runner.rs) -/

/-- The loop body of `parse_ports` (`cli/src/runner.rs:106-140`) over the
comma-separated pieces: trim each piece, skip empties, treat pieces with a
dash as ranges (exactly two sides, both valid `u16`, start not above end,
extended inclusively), parse the rest as single ports; any parse failure
aborts the whole call. -/
def parsePortsParts : List (List Char) → Except Unit (List Nat)
  | [] => Except.ok []
  | part :: rest =>
      let p := trimChars part
      if p = [] then parsePortsParts rest
      else if p.contains '-' then
        let range := splitOnChar '-' p
        if range.length ≠ 2 then Except.error ()
        else
          match parseU16 (range.getD 0 []), parseU16 (range.getD 1 []) with
          | some start, some stop =>
              if stop < start then Except.error ()
              else
                match parsePortsParts rest with
                | Except.ok ports =>
                    Except.ok ((List.range (stop + 1 - start)).map (start + ·) ++ ports)
                | Except.error e => Except.error e
          | _, _ => Except.error ()
      else
        match parseU16 p with
        | some port =>
            match parsePortsParts rest with
            | Except.ok ports => Except.ok (port :: ports)
            | Except.error e => Except.error e
        | none => Except.error ()

/-- `cli/src/runner.rs:106-140`, `parse_ports`: split on commas, collect via
the loop above, and reject an empty final list. -/
def parse_ports (s : List Char) : Except Unit (List Nat) :=
  match parsePortsParts (splitOnChar ',' s) with
  | Except.ok ports => if ports.isEmpty then Except.error () else Except.ok ports
  | Except.error e => Except.error e

/-! ## Service identification (fingerprint/src/service_detector.rs) -/

/-- ASCII digit test (regex `\d`). -/
def isDigitCh (c : Char) : Bool := '0' ≤ c && c ≤ '9'

/-- Maximal leading digit run and the remainder. -/
def takeDigits (cs : List Char) : List Char × List Char :=
  (cs.takeWhile isDigitCh, cs.dropWhile isDigitCh)

/-- One optional `(?:\.\d+)` group: consumed only when a dot followed by at
least one digit is next. -/
def matchOptDotDigits (cs : List Char) : List Char × List Char :=
  match cs with
  | '.' :: rest =>
      let (d, r) := takeDigits rest
      if d = [] then ([], cs) else ('.' :: d, r)
  | _ => ([], cs)

/-- The mandatory capture `\d+\.\d+(?:\.\d+)?(?:\.\d+)?` of the version
regex, matched greedily at the start of `cs` (digit runs and dots are
disjoint, so greedy matching is deterministic). -/
def matchVersionCore (cs : List Char) : Option (List Char) :=
  let (d1, r1) := takeDigits cs
  if d1 = [] then none
  else
    match r1 with
    | '.' :: r2 =>
        let (d2, r3) := takeDigits r2
        if d2 = [] then none
        else
          let (g3, r4) := matchOptDotDigits r3
          let (g4, _) := matchOptDotDigits r4
          some (d1 ++ '.' :: (d2 ++ g3 ++ g4))
    | _ => none

/-- Attempt of the whole regex `(?:v|version)?\s*(\d+\.\d+(?:\.\d+)?(?:\.\d+)?)`
at one position, with the alternation tried in regex order: `v`, then
`version`, then the empty prefix; `\s*` is a maximal whitespace run (spaces
and digits are disjoint, so no further backtracking arises). -/
def matchVersionAt (cs : List Char) : Option (List Char) :=
  let tryAfter : List Char → Option (List Char) :=
    fun rest => matchVersionCore (rest.dropWhile isWsCh)
  match (if ("v".toList).isPrefixOf cs then tryAfter (cs.drop 1) else none) with
  | some v => some v
  | none =>
      match (if ("version".toList).isPrefixOf cs then tryAfter (cs.drop 7) else none) with
      | some v => some v
      | none => tryAfter cs

/-- `service_detector.rs:513-527`, `extract_version_number`: first
(leftmost) match of the version regex; the capture group is returned. -/
def extract_version_number : List Char → Option (List Char)
  | [] => none
  | c :: t =>
      match matchVersionAt (c :: t) with
      | some v => some v
      | none => extract_version_number t

/-- `if let Some(p) = product { svc = svc.with_product(p) }`. -/
def applyProduct (m : ServiceMatch) : Option (List Char) → ServiceMatch
  | some p => m.with_product p
  | none => m

/-- `if let Some(v) = version { svc = svc.with_version(v) }`. -/
def applyVersion (m : ServiceMatch) : Option (List Char) → ServiceMatch
  | some v => m.with_version v
  | none => m

/-- `service_detector.rs:321-354`, `extract_http_info` (receives the
lower-cased banner). -/
def extract_http_info (banner : List Char) (port : Nat) :
    List Char × Option (List Char) × Option (List Char) :=
  let service :=
    if port = 443 ∨ containsStr banner "ssl".toList ∨ containsStr banner "tls".toList then
      "https".toList
    else "http".toList
  let fallbackServers : List Char × Option (List Char) × Option (List Char) :=
    if containsStr banner "nginx".toList then
      (service, some "nginx".toList, extract_version_number banner)
    else if containsStr banner "apache".toList then
      (service, some "Apache".toList, extract_version_number banner)
    else if containsStr banner "iis".toList ∨ containsStr banner "microsoft".toList then
      (service, some "IIS".toList, extract_version_number banner)
    else (service, none, none)
  match findSub banner "server:".toList with
  | some serverIdx =>
      let serverLine := banner.drop serverIdx
      match findCharIdx serverLine (fun c => c == '\n') with
      | some endi =>
          let serverVal := trimChars ((serverLine.take endi).drop 7)
          let parts := splitOnChar '/' serverVal
          if parts.length ≥ 2 then
            (service, some (trimChars (parts.getD 0 [])),
              some ((splitWs (parts.getD 1 [])).getD 0 []))
          else if serverVal ≠ [] then (service, some serverVal, none)
          else fallbackServers
      | none => fallbackServers
  | none => fallbackServers

/-- `service_detector.rs:357-376`, `extract_ssh_info`: take the line from
the first `ssh-` up to a newline, carriage return or space, split it on
dashes, and read `product_version` out of the third piece. -/
def extract_ssh_info (banner : List Char) : Option (List Char) × Option (List Char) :=
  match findSub banner "ssh-".toList with
  | some start =>
      let rest := banner.drop start
      let sshLine :=
        match findCharIdx rest (fun c => c == '\n' || c == '\r' || c == ' ') with
        | some e => rest.take e
        | none => rest
      let parts := splitOnChar '-' sshLine
      if parts.length ≥ 3 then
        let us := splitOnChar '_' (parts.getD 2 [])
        (some (us.getD 0 []), us.get? 1)
      else (none, none)
  | none => (none, none)

/-- Scan whitespace-split pieces for the first containing one of the product
names; return it and the following piece, if any (shared shape of
`extract_ftp_info` and `extract_smtp_info`). -/
def scanProductParts (names : List (List Char)) :
    List (List Char) → Option (List Char × Option (List Char))
  | [] => none
  | p :: rest =>
      let pl := toLowerStr p
      if names.any (fun n => containsStr pl n) then some (p, rest.head?)
      else scanProductParts names rest

/-- `service_detector.rs:379-396`, `extract_ftp_info`. -/
def extract_ftp_info (banner : List Char) : Option (List Char) × Option (List Char) :=
  match scanProductParts
      ["proftpd".toList, "vsftpd".toList, "pure-ftpd".toList, "filezilla".toList]
      (splitWs banner) with
  | some (prod, some nxt) => (some prod, some nxt)
  | some (prod, none) => (some prod, extract_version_number banner)
  | none => (none, extract_version_number banner)

/-- `service_detector.rs:399-417`, `extract_smtp_info`. -/
def extract_smtp_info (banner : List Char) : Option (List Char) × Option (List Char) :=
  match scanProductParts
      ["postfix".toList, "sendmail".toList, "exim".toList, "microsoft".toList,
        "exchange".toList]
      (splitWs banner) with
  | some (prod, some nxt) => (some prod, some nxt)
  | some (prod, none) => (some prod, extract_version_number banner)
  | none => (none, extract_version_number banner)

/-- `service_detector.rs:420-422`, `extract_pop3_version`. -/
def extract_pop3_version (banner : List Char) : Option (List Char) :=
  extract_version_number banner

/-- `service_detector.rs:425-433`, `extract_imap_info`. -/
def extract_imap_info (banner : List Char) : Option (List Char) × Option (List Char) :=
  if containsStr banner "dovecot".toList then
    (some "Dovecot".toList, extract_version_number banner)
  else if containsStr banner "cyrus".toList then
    (some "Cyrus".toList, extract_version_number banner)
  else (none, extract_version_number banner)

/-- `service_detector.rs:436-440`, `extract_mysql_version`. -/
def extract_mysql_version (banner : List Char) : Option (List Char) :=
  extract_version_number banner

/-- `service_detector.rs:443-453`, `extract_postgresql_version`. -/
def extract_postgresql_version (banner : List Char) : Option (List Char) :=
  match findSub banner "postgresql".toList with
  | some idx =>
      let parts := splitWs (banner.drop idx)
      if parts.length ≥ 2 then some (parts.getD 1 [])
      else extract_version_number banner
  | none => extract_version_number banner

/-- `service_detector.rs:456-468`, `extract_redis_version`. -/
def extract_redis_version (banner : List Char) : Option (List Char) :=
  match findSub banner "redis".toList with
  | some idx =>
      let rest := banner.drop idx
      match findSub rest "v=".toList with
      | some vIdx =>
          let versionPart := rest.drop (vIdx + 2)
          match findCharIdx versionPart (fun c => c == ' ' || c == '\n' || c == '\r') with
          | some e => some (versionPart.take e)
          | none => extract_version_number banner
      | none => extract_version_number banner
  | none => extract_version_number banner

/-- `service_detector.rs:471-481`, `extract_mongodb_version`. -/
def extract_mongodb_version (banner : List Char) : Option (List Char) :=
  match findSub banner "mongodb".toList with
  | some idx =>
      let parts := splitWs (banner.drop idx)
      if parts.length ≥ 2 then some (parts.getD 1 [])
      else extract_version_number banner
  | none => extract_version_number banner

/-- `service_detector.rs:484-496`, `extract_elasticsearch_version`. -/
def extract_elasticsearch_version (banner : List Char) : Option (List Char) :=
  match findSub banner ("\"number\"".toList) with
  | some idx =>
      let rest := banner.drop idx
      match findCharIdx rest (fun c => c == '"') with
      | some start =>
          let versionPart := rest.drop (start + 1)
          match findCharIdx versionPart (fun c => c == '"') with
          | some e => some (versionPart.take e)
          | none => extract_version_number banner
      | none => extract_version_number banner
  | none => extract_version_number banner

/-- `service_detector.rs:499-509`, `extract_vnc_version` (no generic
fallback). -/
def extract_vnc_version (banner : List Char) : Option (List Char) :=
  match findSub banner "rfb".toList with
  | some idx =>
      let parts := splitWs (banner.drop idx)
      if parts.length ≥ 2 then some (parts.getD 1 []) else none
  | none => none

/-- The 11-byte RDP protocol signature of `service_detector.rs:301`. -/
def rdpSig : List Nat := [0x03, 0x00, 0x00, 0x13, 0x0e, 0xe0, 0x00, 0x00, 0x00, 0x00, 0x00]

/-- `service_detector.rs:156-318`, `detect_service_from_banner`: the ordered
pattern cascade over the lower-cased banner (NUL-byte, leading `+` and RDP
signature tests run on the original banner bytes, as in the source). -/
def detect_service_from_banner (banner : List Char) (port : Nat) : Option ServiceMatch :=
  let bannerLower := toLowerStr banner
  if startsWithStr bannerLower "http/".toList ∨ containsStr bannerLower "server:".toList then
    let (service, product, version) := extract_http_info bannerLower port
    some (applyVersion (applyProduct (ServiceMatch.new service) product) version)
  else if containsStr bannerLower "ssh-".toList ∨ startsWithStr bannerLower "ssh".toList then
    let (product, version) := extract_ssh_info bannerLower
    some (applyVersion (applyProduct (ServiceMatch.new "ssh".toList) product) version)
  else if startsWithStr bannerLower "220".toList ∧ containsStr bannerLower "ftp".toList then
    let (product, version) := extract_ftp_info bannerLower
    some (applyVersion (applyProduct (ServiceMatch.new "ftp".toList) product) version)
  else if startsWithStr bannerLower "220".toList ∧
      (containsStr bannerLower "smtp".toList ∨ containsStr bannerLower "mail".toList ∨
        containsStr bannerLower "esmtp".toList) then
    let (product, version) := extract_smtp_info bannerLower
    some (applyVersion (applyProduct (ServiceMatch.new "smtp".toList) product) version)
  else if startsWithStr bannerLower "+ok".toList ∨ containsStr bannerLower "pop3".toList then
    some (applyVersion (ServiceMatch.new "pop3".toList) (extract_pop3_version bannerLower))
  else if startsWithStr bannerLower "* ok".toList ∨ containsStr bannerLower "imap".toList then
    let (product, version) := extract_imap_info bannerLower
    some (applyVersion (applyProduct (ServiceMatch.new "imap".toList) product) version)
  else if containsStr bannerLower "mysql".toList ∨
      (port = 3306 ∧ banner.any (fun c => c.toNat = 0)) then
    some (applyVersion (ServiceMatch.new "mysql".toList) (extract_mysql_version banner))
  else if containsStr bannerLower "postgresql".toList ∨
      (banner.length ≥ 4 ∧ (banner.take 4).all (fun c => c.toNat = 0)) then
    some (applyVersion (ServiceMatch.new "postgresql".toList)
      (extract_postgresql_version bannerLower))
  else if containsStr bannerLower "redis".toList ∨ startsWithStr banner "+".toList then
    some (applyVersion (ServiceMatch.new "redis".toList) (extract_redis_version bannerLower))
  else if containsStr bannerLower "mongodb".toList ∨ port = 27017 then
    some (applyVersion (ServiceMatch.new "mongodb".toList)
      (extract_mongodb_version bannerLower))
  else if containsStr bannerLower "elasticsearch".toList ∨ port = 9200 then
    some (applyVersion (ServiceMatch.new "elasticsearch".toList)
      (extract_elasticsearch_version bannerLower))
  else if containsStr bannerLower "telnet".toList ∨ containsStr bannerLower "login:".toList then
    some (ServiceMatch.new "telnet".toList)
  else if containsStr bannerLower "rfb".toList ∨ containsStr bannerLower "vnc".toList then
    some (applyVersion (ServiceMatch.new "vnc".toList) (extract_vnc_version bannerLower))
  else if banner.length ≥ 11 ∧ (banner.take 11).map Char.toNat = rdpSig then
    some (ServiceMatch.new "rdp".toList)
  else if containsStr bannerLower "docker".toList ∨ port = 2375 ∨ port = 2376 then
    some (ServiceMatch.new "docker".toList)
  else if containsStr bannerLower "kubernetes".toList ∨ port = 6443 then
    some (ServiceMatch.new "kubernetes".toList)
  else none

/-- `service_detector.rs:10-153`, `detect_service_from_port`: exact-match
static port table. -/
def detect_service_from_port (port : Nat) : Option ServiceMatch :=
  let service : Option (List Char) :=
    if port = 20 then some "ftp-data".toList
    else if port = 21 then some "ftp".toList
    else if port = 990 then some "ftps".toList
    else if port = 22 then some "ssh".toList
    else if port = 23 then some "telnet".toList
    else if port = 25 then some "smtp".toList
    else if port = 465 then some "smtps".toList
    else if port = 587 then some "submission".toList
    else if port = 53 then some "domain".toList
    else if port = 80 then some "http".toList
    else if port = 443 then some "https".toList
    else if port = 8000 then some "http-alt".toList
    else if port = 8080 then some "http-proxy".toList
    else if port = 8443 then some "https-alt".toList
    else if port = 8888 then some "http-alt".toList
    else if port = 9000 then some "http-alt".toList
    else if port = 3000 then some "http-alt".toList
    else if port = 5000 then some "http-alt".toList
    else if port = 109 then some "pop2".toList
    else if port = 110 then some "pop3".toList
    else if port = 995 then some "pop3s".toList
    else if port = 106 then some "pop3pw".toList
    else if port = 143 then some "imap".toList
    else if port = 220 then some "imap3".toList
    else if port = 993 then some "imaps".toList
    else if port = 111 then some "rpcbind".toList
    else if port = 135 then some "msrpc".toList
    else if port = 139 then some "netbios-ssn".toList
    else if port = 445 then some "microsoft-ds".toList
    else if port = 3389 then some "rdp".toList
    else if port = 5985 then some "wsman".toList
    else if port = 5986 then some "wsmans".toList
    else if port = 161 then some "snmp".toList
    else if port = 162 then some "snmptrap".toList
    else if port = 389 then some "ldap".toList
    else if port = 636 then some "ldaps".toList
    else if port = 123 then some "ntp".toList
    else if port = 119 then some "nntp".toList
    else if port = 179 then some "bgp".toList
    else if port = 79 then some "finger".toList
    else if port = 88 then some "kerberos".toList
    else if port = 517 then some "talk".toList
    else if port = 518 then some "ntalk".toList
    else if port = 194 then some "irc".toList
    else if port = 6667 then some "irc".toList
    else if port = 6697 then some "ircs".toList
    else if port = 9418 then some "git".toList
    else if port = 514 then some "syslog".toList
    else if port = 873 then some "rsync".toList
    else if port = 2049 then some "nfs".toList
    else if port = 1080 then some "socks".toList
    else if port = 3128 then some "squid-http".toList
    else if port = 1433 then some "mssql".toList
    else if port = 1521 then some "oracle".toList
    else if port = 3306 then some "mysql".toList
    else if port = 5432 then some "postgresql".toList
    else if port = 27017 then some "mongodb".toList
    else if port = 6379 then some "redis".toList
    else if port = 9200 then some "elasticsearch".toList
    else if port = 11211 then some "memcached".toList
    else if port = 5900 then some "vnc".toList
    else if port = 5901 then some "vnc-1".toList
    else if port = 5902 then some "vnc-2".toList
    else if port = 1723 then some "pptp".toList
    else if port = 1194 then some "openvpn".toList
    else if port = 500 then some "isakmp".toList
    else if port = 4500 then some "ipsec-nat-t".toList
    else if port = 2375 then some "docker".toList
    else if port = 2376 then some "docker-tls".toList
    else if port = 6443 then some "kubernetes".toList
    else if port = 10250 then some "kubelet".toList
    else if port = 5672 then some "amqp".toList
    else if port = 15672 then some "rabbitmq".toList
    else if port = 1883 then some "mqtt".toList
    else if port = 8883 then some "mqtts".toList
    else if port = 9090 then some "prometheus".toList
    else if port = 1000 then some "cadlock".toList
    else if port = 2000 then some "cisco-sccp".toList
    else none
  service.map ServiceMatch.new

/-- `service_detector.rs:530-540`, `detect_service`: banner-based detection
first, port table as the fallback. -/
def detect_service (port : Nat) (banner : Option (List Char)) : Option ServiceMatch :=
  match banner with
  | some b =>
      match detect_service_from_banner b port with
      | some service => some service
      | none => detect_service_from_port port
  | none => detect_service_from_port port

/-! ## Banner grabbing and the connect prober (scanner_tcp) -/

/-- The ways a bounded stream read can settle in `BannerGrabber::grab`
(`banner.rs:30,50`): `n` bytes read (`Ok(Ok(n))`, possibly zero), a read
error (`Ok(Err(_))`) or expiry of the read timeout (`Err(_)`). -/
inductive ReadOutcome where
  | bytesRead (bytes : List Char)
  | readErr
  | readTimeout

deriving DecidableEq, Repr

/-- The active-probe half of `grab` (`banner.rs:43-68`): a failed or
timed-out write of the HTTP probe fails the grab; then one more read, where
a non-empty read succeeds (trimmed) and an empty read, a read error or a
timeout all fail the grab. -/
def banner_grab_active (writeOk : Bool) (active : ReadOutcome) : Except Unit (List Char) :=
  if ¬writeOk then Except.error ()
  else
    match active with
    | ReadOutcome.bytesRead bytes =>
        if bytes ≠ [] then Except.ok (trimChars bytes) else Except.error ()
    | ReadOutcome.readErr => Except.error ()
    | ReadOutcome.readTimeout => Except.error ()

/-- `banner.rs:24-69`, `BannerGrabber::grab`: a passive read first — any
non-empty read returns the trimmed banner; everything else (empty read,
error, timeout) falls through to the active HTTP-shaped probe. -/
def banner_grab (passive : ReadOutcome) (writeOk : Bool) (active : ReadOutcome) :
    Except Unit (List Char) :=
  match passive with
  | ReadOutcome.bytesRead bytes =>
      if bytes ≠ [] then Except.ok (trimChars bytes)
      else banner_grab_active writeOk active
  | ReadOutcome.readErr => banner_grab_active writeOk active
  | ReadOutcome.readTimeout => banner_grab_active writeOk active

/-- `scanner.rs:140-144`: the banner-eligible port allow-list. -/
def should_grab_banner (port : Nat) : Bool :=
  [21, 22, 25, 80, 110, 143, 443, 465, 587, 993, 995,
    3306, 5432, 6379, 27017, 9200, 8080, 8443, 8000, 8888, 9000].contains port

/-- `r.ok()` on the grab result (`scanner.rs:155`, `.and_then(|r| r.ok())`). -/
def grabToOption : Except Unit (List Char) → Option (List Char)
  | Except.ok b => some b
  | Except.error _ => none

/-- How `TcpScanner::try_connect` settled: a stream, or a final error
described by the IO kind found in its chain and its message text. -/
inductive ConnectOutcome where
  | connected (passive : ReadOutcome) (writeOk : Bool) (active : ReadOutcome)
  | failed (ioKind : Option IoErrorKind) (msgRefused msgTimeout : Bool)

deriving DecidableEq, Repr

/-- `if let Some(b) = banner { result = result.with_banner(b) }`. -/
def applyBanner (r : ProbeResult) : Option (List Char) → ProbeResult
  | some b => r.with_banner b
  | none => r

/-- `if let Some(s) = service { result = result.with_service(s) }`. -/
def applyService (r : ProbeResult) : Option ServiceMatch → ProbeResult
  | some s => r.with_service s
  | none => r

/-- `scanner.rs:146-158`: the banner actually attached on the success path —
allow-listed ports only, the grab raced against `banner_timeout`
(`grabTimedOut` models the race losing), and any grab failure absorbed into
`none`. -/
def scan_banner (port : Nat) (passive : ReadOutcome) (writeOk : Bool)
    (active : ReadOutcome) (grabTimedOut : Bool) : Option (List Char) :=
  if should_grab_banner port then
    if grabTimedOut then none
    else grabToOption (banner_grab passive writeOk active)
  else none

/-- `scanner.rs:130-233`, `TcpScanner::scan` from the point the connect
attempt settles.  On success: grab a banner, identify the service from port
and banner, and build an `Open` result.  On failure: classify the failure,
attach the port-table service, and build the result.  Both branches return
`Ok`. -/
def tcp_scan (timeout : Nat) (target : Target) (outcome : ConnectOutcome)
    (rtt : Nat) (grabTimedOut : Bool) : Except Unit ProbeResult :=
  match outcome with
  | ConnectOutcome.connected passive writeOk active =>
      let banner := scan_banner target.port passive writeOk active grabTimedOut
      let service := detect_service target.port banner
      Except.ok (applyService
        (applyBanner ((ProbeResult.new target PortState.Open).with_rtt rtt) banner) service)
  | ConnectOutcome.failed ioKind msgRefused msgTimeout =>
      let state := classify_connect_failure ioKind msgRefused msgTimeout rtt timeout
      let service := detect_service_from_port target.port
      Except.ok (applyService ((ProbeResult.new target state).with_rtt rtt) service)

/-! # Theorems -/

/-! ## Claim C1 -/

/-- C1: for every TCP flags byte `f` delivered to a SYN probe,
`classify_response` maps `f` to `Open` when `f` has both SYN and ACK bits set
(`f &&& (SYN|||ACK) = SYN|||ACK`), to `Closed` when `f` has the RST bit set
but not both SYN and ACK, and to `Filtered` otherwise. -/
theorem classify_response_spec (f : Nat) (hf : f < 256) :
    (f &&& (tcp_flags.SYN ||| tcp_flags.ACK) = tcp_flags.SYN ||| tcp_flags.ACK →
      classify_response f = PortState.Open) ∧
    (f &&& (tcp_flags.SYN ||| tcp_flags.ACK) ≠ tcp_flags.SYN ||| tcp_flags.ACK →
      f &&& tcp_flags.RST ≠ 0 → classify_response f = PortState.Closed) ∧
    (f &&& (tcp_flags.SYN ||| tcp_flags.ACK) ≠ tcp_flags.SYN ||| tcp_flags.ACK →
      f &&& tcp_flags.RST = 0 → classify_response f = PortState.Filtered) := by
  revert hf
  revert f
  decide

/-- C1 witness: a SYN|ACK response (flags `0x12`) classifies as `Open`. -/
theorem classify_response_spec_witness : classify_response 0x12 = PortState.Open :=
  (classify_response_spec 0x12 (by decide)).1 (by decide)

/-! ## Claim C2 -/

/-- C2: after every `ScanStats::update`, `scanned` equals
`open_ports + closed_ports + filtered_ports`, provided the equality held
before the call and the counters do not saturate; both `Filtered` and
`OpenFiltered` results are counted into `filtered_ports`. -/
theorem scan_stats_update_invariant (s : ScanStats) (r : ProbeResult)
    (hinv : s.scanned = s.open_ports + s.closed_ports + s.filtered_ports)
    (hsat : s.scanned < USIZE_MAX) :
    (s.update r).scanned =
      (s.update r).open_ports + (s.update r).closed_ports + (s.update r).filtered_ports ∧
    ((r.state = PortState.Filtered ∨ r.state = PortState.OpenFiltered) →
      (s.update r).filtered_ports = s.filtered_ports + 1) := by
  have hopen : s.open_ports ≤ s.scanned := by omega
  have hclosed : s.closed_ports ≤ s.scanned := by omega
  have hfilt : s.filtered_ports ≤ s.scanned := by omega
  cases hstate : r.state <;>
    simp only [ScanStats.update, hstate, satAdd, USIZE_MAX] at * <;>
    split <;>
    simp_all <;>
    omega

/-- C2 witness: updating fresh stats with a `Filtered` result keeps the
counter identity and bumps `filtered_ports` to 1. -/
theorem scan_stats_update_invariant_witness :
    ((ScanStats.new 3).update
        (ProbeResult.new (Target.new (IpAddr.v4 127 0 0 1) 80) PortState.Filtered)).scanned =
      ((ScanStats.new 3).update
        (ProbeResult.new (Target.new (IpAddr.v4 127 0 0 1) 80) PortState.Filtered)).open_ports +
      ((ScanStats.new 3).update
        (ProbeResult.new (Target.new (IpAddr.v4 127 0 0 1) 80) PortState.Filtered)).closed_ports +
      ((ScanStats.new 3).update
        (ProbeResult.new (Target.new (IpAddr.v4 127 0 0 1) 80) PortState.Filtered)).filtered_ports ∧
    ((ProbeResult.new (Target.new (IpAddr.v4 127 0 0 1) 80) PortState.Filtered).state =
        PortState.Filtered ∨
      (ProbeResult.new (Target.new (IpAddr.v4 127 0 0 1) 80) PortState.Filtered).state =
        PortState.OpenFiltered →
      ((ScanStats.new 3).update
        (ProbeResult.new (Target.new (IpAddr.v4 127 0 0 1) 80) PortState.Filtered)).filtered_ports =
        (ScanStats.new 3).filtered_ports + 1) := by
  have h := scan_stats_update_invariant (ScanStats.new 3)
    (ProbeResult.new (Target.new (IpAddr.v4 127 0 0 1) 80) PortState.Filtered)
    (by decide) (by decide)
  exact ⟨h.1, fun _ => h.2 (Or.inl rfl)⟩

/-! ## Checksum fold helper lemmas -/

theorem foldCarryFuel_of_lt (fuel s : Nat) (h : s < 65536) :
    foldCarryFuel fuel s = s := by
  cases fuel <;> simp [foldCarryFuel, h]

theorem foldStep_lt (s : Nat) (h : 65536 ≤ s) : foldStep s < s := by
  simp only [foldStep]
  omega

theorem foldCarryFuel_congr :
    ∀ f1 f2 s : Nat, s ≤ f1 → s ≤ f2 → foldCarryFuel f1 s = foldCarryFuel f2 s := by
  intro f1
  induction f1 with
  | zero =>
      intro f2 s h1 _
      have hs : s = 0 := Nat.le_zero.mp h1
      subst hs
      simp [foldCarryFuel_of_lt]
  | succ f ih =>
      intro f2 s h1 h2
      by_cases hlt : s < 65536
      · simp [foldCarryFuel_of_lt, hlt]
      · have hge : 65536 ≤ s := Nat.le_of_not_lt hlt
        obtain ⟨f2p, rfl⟩ : ∃ f2p, f2 = f2p + 1 := by
          cases f2 with
          | zero => omega
          | succ n => exact ⟨n, rfl⟩
        have hstep := foldStep_lt s hge
        simp only [foldCarryFuel, if_neg hlt]
        exact ih f2p (foldStep s) (by omega) (by omega)

/-- `foldCarry` satisfies the loop equation of the source: return once the
sum fits in 16 bits, otherwise fold the carry back in and repeat. -/
theorem foldCarry_unfold (s : Nat) :
    foldCarry s = if s < 65536 then s else foldCarry (foldStep s) := by
  by_cases hlt : s < 65536
  · simp [foldCarry, foldCarryFuel_of_lt, hlt]
  · have hge : 65536 ≤ s := Nat.le_of_not_lt hlt
    obtain ⟨sp, rfl⟩ : ∃ sp, s = sp + 1 := by
      cases s with
      | zero => omega
      | succ n => exact ⟨n, rfl⟩
    have hstep := foldStep_lt (sp + 1) hge
    simp only [foldCarry, foldCarryFuel, if_neg hlt]
    exact foldCarryFuel_congr sp (foldStep (sp + 1)) (foldStep (sp + 1)) (by omega) (by omega)

/-! ## Claim C3 -/

/-- C3: at the concrete input above, `parse_packet` round-trips the built
packet (source, ports, destination, SYN flags all recovered) and the IPv4
header checksum verifies under the standard one's-complement sum — the
builder's own `tcp_checksum_v4` also re-evaluates to 0 on the final segment
— but the claim's TCP pseudo-header checksum verification fails: the
standard one's-complement sum over the pseudo-header and TCP segment is not
zero, because `tcp_checksum_v4` shifts every pseudo-header address byte into
the high octet instead of summing the addresses as 16-bit words. -/
theorem build_syn_packet_checksum_bug :
    parse_packet bugPacket =
      Except.ok (some (IpAddr.v4 192 0 2 1, 40000, IpAddr.v4 198 51 100 2, 443,
        tcp_flags.SYN, 40, 0)) ∧
    checksum (bugPacket.take 20) = 0 ∧
    tcp_checksum_v4 192 0 2 1 198 51 100 2 (bugPacket.drop 20) = 0 ∧
    spec_tcp_pseudo_checksum_v4 192 0 2 1 198 51 100 2 (bugPacket.drop 20) ≠ 0 := by
  decide

/-! ## Claim C10 -/

theorem idx_ok (buf : List Nat) (i : Nat) (h : i < buf.length) :
    idx buf i = Except.ok (buf.getD i 0) := by simp [idx, h]

theorem sliceFrom_ok (buf : List Nat) (start : Nat) (h : start ≤ buf.length) :
    sliceFrom buf start = Except.ok (buf.drop start) := by simp [sliceFrom, h]

theorem parse_ipv4_packet_ok (buf : List Nat) :
    ∃ r, parse_ipv4_packet buf = Except.ok r := by
  unfold parse_ipv4_packet
  by_cases h40 : buf.length < 40
  · exact ⟨none, by simp [h40, pure, Except.pure]⟩
  push_neg at h40
  rw [if_neg (by omega)]
  simp only [pure, Except.pure, bind, Except.bind, idx_ok buf 0 (by omega),
    idx_ok buf 9 (by omega)]
  by_cases hihl : buf.length < buf.getD 0 0 % 16 * 4 + 20
  · rw [if_pos hihl]; exact ⟨none, rfl⟩
  push_neg at hihl
  rw [if_neg (by omega)]
  by_cases hproto : buf.getD 9 0 = 6
  · rw [if_neg (by omega)]
    simp only [idx_ok buf 12 (by omega), idx_ok buf 13 (by omega), idx_ok buf 14 (by omega),
      idx_ok buf 15 (by omega), idx_ok buf 16 (by omega), idx_ok buf 17 (by omega),
      idx_ok buf 18 (by omega), idx_ok buf 19 (by omega),
      sliceFrom_ok buf (buf.getD 0 0 % 16 * 4) (by omega), List.length_drop]
    rw [if_neg (by omega)]
    simp only [idx_ok (buf.drop (buf.getD 0 0 % 16 * 4)) 0 (by simp only [List.length_drop]; omega),
      idx_ok (buf.drop (buf.getD 0 0 % 16 * 4)) 1 (by simp only [List.length_drop]; omega),
      idx_ok (buf.drop (buf.getD 0 0 % 16 * 4)) 2 (by simp only [List.length_drop]; omega),
      idx_ok (buf.drop (buf.getD 0 0 % 16 * 4)) 3 (by simp only [List.length_drop]; omega),
      idx_ok (buf.drop (buf.getD 0 0 % 16 * 4)) 13 (by simp only [List.length_drop]; omega),
      idx_ok (buf.drop (buf.getD 0 0 % 16 * 4)) 12 (by simp only [List.length_drop]; omega)]
    exact ⟨_, rfl⟩
  · rw [if_pos (by omega)]
    exact ⟨none, rfl⟩

theorem parse_ipv6_packet_ok (buf : List Nat) :
    ∃ r, parse_ipv6_packet buf = Except.ok r := by
  unfold parse_ipv6_packet
  by_cases h60 : buf.length < 60
  · exact ⟨none, by simp [h60, pure, Except.pure]⟩
  push_neg at h60
  rw [if_neg (by omega)]
  simp only [pure, Except.pure, bind, Except.bind, idx_ok buf 6 (by omega)]
  by_cases hnh : buf.getD 6 0 = 6
  · rw [if_neg (by omega)]
    simp only [idx_ok buf 8 (by omega), idx_ok buf 9 (by omega), idx_ok buf 10 (by omega),
      idx_ok buf 11 (by omega), idx_ok buf 12 (by omega), idx_ok buf 13 (by omega),
      idx_ok buf 14 (by omega), idx_ok buf 15 (by omega), idx_ok buf 16 (by omega),
      idx_ok buf 17 (by omega), idx_ok buf 18 (by omega), idx_ok buf 19 (by omega),
      idx_ok buf 20 (by omega), idx_ok buf 21 (by omega), idx_ok buf 22 (by omega),
      idx_ok buf 23 (by omega), idx_ok buf 24 (by omega), idx_ok buf 25 (by omega),
      idx_ok buf 26 (by omega), idx_ok buf 27 (by omega), idx_ok buf 28 (by omega),
      idx_ok buf 29 (by omega), idx_ok buf 30 (by omega), idx_ok buf 31 (by omega),
      idx_ok buf 32 (by omega), idx_ok buf 33 (by omega), idx_ok buf 34 (by omega),
      idx_ok buf 35 (by omega), idx_ok buf 36 (by omega), idx_ok buf 37 (by omega),
      idx_ok buf 38 (by omega), idx_ok buf 39 (by omega),
      sliceFrom_ok buf 40 (by omega), List.length_drop]
    rw [if_neg (by omega)]
    simp only [idx_ok (buf.drop 40) 0 (by simp only [List.length_drop]; omega),
      idx_ok (buf.drop 40) 1 (by simp only [List.length_drop]; omega),
      idx_ok (buf.drop 40) 2 (by simp only [List.length_drop]; omega),
      idx_ok (buf.drop 40) 3 (by simp only [List.length_drop]; omega),
      idx_ok (buf.drop 40) 13 (by simp only [List.length_drop]; omega),
      idx_ok (buf.drop 40) 12 (by simp only [List.length_drop]; omega)]
    exact ⟨_, rfl⟩
  · rw [if_pos (by omega)]
    exact ⟨none, rfl⟩

/-- C10: `parse_packet` is total and never panics — it always returns
`Except.ok` (never the `Except.error` that models a Rust indexing panic),
and it returns `none` for every slice shorter than 40 bytes, for an IPv4
IHL that would place the TCP header beyond the buffer, for non-TCP protocol
and next-header values, for IPv6 datagrams shorter than 60 bytes, and for
unknown version nibbles; every index used on the successful paths is within
bounds under these guards. -/
theorem parse_packet_total (buf : List Nat) :
    (∃ r, parse_packet buf = Except.ok r) ∧
    (buf.length < 40 → parse_packet buf = Except.ok none) ∧
    (40 ≤ buf.length → buf.getD 0 0 / 16 = 4 →
      buf.length < buf.getD 0 0 % 16 * 4 + 20 → parse_packet buf = Except.ok none) ∧
    (40 ≤ buf.length → buf.getD 0 0 / 16 = 4 →
      buf.getD 0 0 % 16 * 4 + 20 ≤ buf.length → buf.getD 9 0 ≠ 6 →
      parse_packet buf = Except.ok none) ∧
    (40 ≤ buf.length → buf.getD 0 0 / 16 = 6 → buf.length < 60 →
      parse_packet buf = Except.ok none) ∧
    (60 ≤ buf.length → buf.getD 0 0 / 16 = 6 → buf.getD 6 0 ≠ 6 →
      parse_packet buf = Except.ok none) ∧
    (40 ≤ buf.length → buf.getD 0 0 / 16 ≠ 4 → buf.getD 0 0 / 16 ≠ 6 →
      parse_packet buf = Except.ok none) := by
  refine ⟨?_, ?_, ?_, ?_, ?_, ?_, ?_⟩
  · unfold parse_packet
    by_cases h40 : buf.length < 40
    · exact ⟨none, by simp [h40, pure, Except.pure]⟩
    push_neg at h40
    rw [if_neg (by omega)]
    simp only [pure, Except.pure, bind, Except.bind, idx_ok buf 0 (by omega)]
    by_cases hv4 : buf.getD 0 0 / 16 = 4
    · rw [if_pos hv4]; exact parse_ipv4_packet_ok buf
    rw [if_neg hv4]
    by_cases hv6 : buf.getD 0 0 / 16 = 6
    · rw [if_pos hv6]; exact parse_ipv6_packet_ok buf
    rw [if_neg hv6]
    exact ⟨none, rfl⟩
  · intro h40
    unfold parse_packet
    exact (by simp [h40, pure, Except.pure])
  · intro h40 hv4 hihl
    unfold parse_packet
    rw [if_neg (by omega)]
    simp only [pure, Except.pure, bind, Except.bind, idx_ok buf 0 (by omega)]
    rw [if_pos hv4]
    unfold parse_ipv4_packet
    rw [if_neg (by omega)]
    simp only [pure, Except.pure, bind, Except.bind, idx_ok buf 0 (by omega)]
    rw [if_pos hihl]
  · intro h40 hv4 hihl hproto
    unfold parse_packet
    rw [if_neg (by omega)]
    simp only [pure, Except.pure, bind, Except.bind, idx_ok buf 0 (by omega)]
    rw [if_pos hv4]
    unfold parse_ipv4_packet
    rw [if_neg (by omega)]
    simp only [pure, Except.pure, bind, Except.bind, idx_ok buf 0 (by omega),
      idx_ok buf 9 (by omega)]
    rw [if_neg (by omega), if_pos (by omega)]
  · intro h40 hv6 h60
    unfold parse_packet
    rw [if_neg (by omega)]
    simp only [pure, Except.pure, bind, Except.bind, idx_ok buf 0 (by omega)]
    rw [if_neg (by omega), if_pos hv6]
    unfold parse_ipv6_packet
    rw [if_pos h60]
    simp [pure, Except.pure]
  · intro h60 hv6 hnh
    unfold parse_packet
    rw [if_neg (by omega)]
    simp only [pure, Except.pure, bind, Except.bind, idx_ok buf 0 (by omega)]
    rw [if_neg (by omega), if_pos hv6]
    unfold parse_ipv6_packet
    rw [if_neg (by omega)]
    simp only [pure, Except.pure, bind, Except.bind, idx_ok buf 6 (by omega)]
    rw [if_pos (by omega)]
  · intro h40 hv4 hv6
    unfold parse_packet
    rw [if_neg (by omega)]
    simp only [pure, Except.pure, bind, Except.bind, idx_ok buf 0 (by omega)]
    rw [if_neg hv4, if_neg hv6]

/-- C10 witness: the empty buffer is shorter than 40 bytes and parses to
`none` without a panic. -/
theorem parse_packet_total_witness : parse_packet [] = Except.ok none :=
  (parse_packet_total []).2.1 (by decide)

/-! ## Claim C4 -/

/-- C4 counterexample: a probe of 10.0.0.1:80 with a 2-second timeout that
times out yields a `Filtered` result whose RTT is `0`, not the
caller-specified timeout `2000000000` ns as the claim states. -/
theorem probe_one_timeout_rtt_counterexample :
    (probe_one_settle (Target.new (IpAddr.v4 10 0 0 1) 80) 2000000000
        (IpAddr.v4 10 0 0 1, 80, 40000, 7)
        (pendingInsert (fun _ => none) (IpAddr.v4 10 0 0 1, 80, 40000, 7) 0)
        AwaitOutcome.timedOut).2 =
      Except.ok (ProbeResult.new (Target.new (IpAddr.v4 10 0 0 1) 80) PortState.Filtered) ∧
    (ProbeResult.new (Target.new (IpAddr.v4 10 0 0 1) 80) PortState.Filtered).rtt = 0 ∧
    (ProbeResult.new (Target.new (IpAddr.v4 10 0 0 1) 80) PortState.Filtered).rtt ≠
      2000000000 := by
  refine ⟨rfl, rfl, by decide⟩

/-- C4 (amended): when the await on the delivery channel times out,
`probe_one` removes the pending-table entry and returns a `ProbeResult`
with state `Filtered` and RTT zero (`Duration::ZERO`, the `ProbeResult::new`
default — not the caller-specified timeout). -/
theorem probe_one_timeout_filtered (target : Target) (timeoutDur : Nat)
    (key : PendingKey) (pending : PendingTable) :
    (probe_one_settle target timeoutDur key pending AwaitOutcome.timedOut).2 =
      Except.ok (ProbeResult.new target PortState.Filtered) ∧
    (ProbeResult.new target PortState.Filtered).state = PortState.Filtered ∧
    (ProbeResult.new target PortState.Filtered).rtt = 0 ∧
    (probe_one_settle target timeoutDur key pending AwaitOutcome.timedOut).1 key = none := by
  refine ⟨rfl, rfl, rfl, ?_⟩
  simp [probe_one_settle, pendingRemove]

/-- C4 witness: the amended behaviour at a concrete probe of 10.0.0.1:80
with a 2-second timeout. -/
theorem probe_one_timeout_filtered_witness :
    (probe_one_settle (Target.new (IpAddr.v4 10 0 0 1) 80) 2000000000
        (IpAddr.v4 10 0 0 1, 80, 40000, 7) (fun _ => none) AwaitOutcome.timedOut).2 =
      Except.ok (ProbeResult.new (Target.new (IpAddr.v4 10 0 0 1) 80) PortState.Filtered) ∧
    (ProbeResult.new (Target.new (IpAddr.v4 10 0 0 1) 80) PortState.Filtered).state =
      PortState.Filtered ∧
    (ProbeResult.new (Target.new (IpAddr.v4 10 0 0 1) 80) PortState.Filtered).rtt = 0 ∧
    (probe_one_settle (Target.new (IpAddr.v4 10 0 0 1) 80) 2000000000
        (IpAddr.v4 10 0 0 1, 80, 40000, 7) (fun _ => none) AwaitOutcome.timedOut).1
      (IpAddr.v4 10 0 0 1, 80, 40000, 7) = none :=
  probe_one_timeout_filtered (Target.new (IpAddr.v4 10 0 0 1) 80) 2000000000
    (IpAddr.v4 10 0 0 1, 80, 40000, 7) (fun _ => none)

/-! ## Claim C5 -/

/-- C5: the connect prober's failure classification follows the ordered
cascade — connection-refused yields `Closed`; a timed-out signal or RTT at
or above the configured timeout yields `Filtered`; otherwise RTT below
100 ms yields `Closed`; otherwise `Filtered` — and consequently the state is
`Closed` only when the error is connection-refused (IO kind or message) or
the RTT is below 100 ms with no timeout signal. -/
theorem tcp_failure_classification (ioKind : Option IoErrorKind)
    (msgRefused msgTimeout : Bool) (rtt timeout : Nat) :
    (classify_connect_failure ioKind msgRefused msgTimeout rtt timeout = PortState.Closed →
      ioKind = some IoErrorKind.connectionRefused ∨ msgRefused = true ∨
        (rtt < 100000000 ∧ ioKind ≠ some IoErrorKind.timedOut ∧ msgTimeout = false ∧
          rtt < timeout)) ∧
    classify_connect_failure (some IoErrorKind.connectionRefused) msgRefused msgTimeout
      rtt timeout = PortState.Closed ∧
    classify_connect_failure (some IoErrorKind.timedOut) msgRefused msgTimeout
      rtt timeout = PortState.Filtered ∧
    classify_connect_failure none msgRefused msgTimeout rtt timeout =
      (if msgRefused then PortState.Closed
       else if msgTimeout ∨ timeout ≤ rtt then PortState.Filtered
       else if rtt < 100000000 then PortState.Closed
       else PortState.Filtered) := by
  refine ⟨?_, rfl, rfl, rfl⟩
  intro h
  rcases ioKind with _ | k
  · simp only [classify_connect_failure] at h
    cases msgRefused
    · cases msgTimeout
      · simp only [Bool.false_eq_true, false_or, if_false] at h
        split at h
        · simp at h
        · split at h
          · right; right
            refine ⟨by omega, by simp, rfl, by omega⟩
          · simp at h
      · simp at h
    · right; left; rfl
  · cases k
    · left; rfl
    · simp [classify_connect_failure] at h
    · simp only [classify_connect_failure] at h
      cases msgRefused
      · cases msgTimeout
        · simp only [Bool.false_eq_true, false_or, if_false] at h
          split at h
          · simp at h
          · split at h
            · right; right
              refine ⟨by omega, by simp, rfl, by omega⟩
            · simp at h
        · simp at h
      · right; left; rfl
    · simp only [classify_connect_failure] at h
      cases msgRefused
      · cases msgTimeout
        · simp only [Bool.false_eq_true, false_or, if_false] at h
          split at h
          · simp at h
          · split at h
            · right; right
              refine ⟨by omega, by simp, rfl, by omega⟩
            · simp at h
        · simp at h
      · right; left; rfl

/-- C5 witness: a refused connect message with 5 ms RTT under an 800 ms
timeout classifies as `Closed`, and the theorem locates the refused signal. -/
theorem tcp_failure_classification_witness :
    none = some IoErrorKind.connectionRefused ∨ true = true ∨
      (5000000 < 100000000 ∧ (none : Option IoErrorKind) ≠ some IoErrorKind.timedOut ∧
        false = false ∧ 5000000 < 800000000) :=
  (tcp_failure_classification none true false 5000000 800000000).1 (by decide)

/-! ## Claim C7 -/

theorem runEvents_absent (es : List ProbeEvent) (hno : ProbeEvent.insert ∉ es) (n : Nat) :
    runEvents { present := false, removals := n } es = { present := false, removals := n } := by
  induction es with
  | nil => rfl
  | cons e es ih =>
      have hne : e ≠ ProbeEvent.insert := fun h => hno (h ▸ List.mem_cons_self e es)
      have hno2 : ProbeEvent.insert ∉ es := fun h => hno (List.mem_cons_of_mem e h)
      have hstep : stepEvent { present := false, removals := n } e =
          { present := false, removals := n } := by
        cases e <;> simp [stepEvent] at hne ⊢
      simp only [runEvents, List.foldl_cons, hstep]
      exact ih hno2

theorem runEvents_pending (es : List ProbeEvent) (hno : ProbeEvent.insert ∉ es)
    (hne : es ≠ []) (n : Nat) :
    runEvents { present := true, removals := n } es = { present := false, removals := n + 1 } := by
  cases es with
  | nil => exact absurd rfl hne
  | cons e es =>
      have henotins : e ≠ ProbeEvent.insert := fun h => hno (h ▸ List.mem_cons_self e es)
      have hno2 : ProbeEvent.insert ∉ es := fun h => hno (List.mem_cons_of_mem e h)
      have hstep : stepEvent { present := true, removals := n } e =
          { present := false, removals := n + 1 } := by
        cases e <;> simp [stepEvent] at henotins ⊢
      simp only [runEvents, List.foldl_cons, hstep]
      exact runEvents_absent es hno2 (n + 1)

/-- C7: a pending-probe key inserted once (`probe_one` registers a fresh
random key exactly once, before sending) and then subjected to any
interleaving of the three removers is removed exactly once — the number of
removal attempts that actually remove the entry is 1, every further attempt
is a no-op — and does not stay in the table forever, because the waiter's
await always settles (delivery, channel close, or timeout) and every branch
removes the key, so every trace contains a `waiterRemove`. -/
theorem pending_key_removed_exactly_once (rest : List ProbeEvent)
    (hno : ProbeEvent.insert ∉ rest)
    (hwaiter : ProbeEvent.waiterRemove ∈ rest) :
    (runEvents { present := false, removals := 0 } (ProbeEvent.insert :: rest)).removals = 1 ∧
    (runEvents { present := false, removals := 0 } (ProbeEvent.insert :: rest)).present =
      false := by
  have hne : rest ≠ [] := by
    intro h
    rw [h] at hwaiter
    exact absurd hwaiter (List.not_mem_nil _)
  have hrun : runEvents { present := false, removals := 0 } (ProbeEvent.insert :: rest) =
      { present := false, removals := 1 } := by
    simp only [runEvents, List.foldl_cons, stepEvent]
    exact runEvents_pending rest hno hne 0
  rw [hrun]
  exact ⟨rfl, rfl⟩

/-- C7 witness: the trace where the capture matcher removes the key first
and the waiter's removal then finds it gone — one actual removal, key
absent at the end. -/
theorem pending_key_removed_exactly_once_witness :
    (runEvents { present := false, removals := 0 }
      (ProbeEvent.insert :: [ProbeEvent.captureRemove, ProbeEvent.waiterRemove])).removals = 1 ∧
    (runEvents { present := false, removals := 0 }
      (ProbeEvent.insert :: [ProbeEvent.captureRemove, ProbeEvent.waiterRemove])).present =
      false :=
  pending_key_removed_exactly_once [ProbeEvent.captureRemove, ProbeEvent.waiterRemove]
    (by decide) (by decide)

/-! ## Claim C9 -/

theorem splitOnChar_no_sep (sep : Char) (cs : List Char) (h : sep ∉ cs) :
    splitOnChar sep cs = [cs] := by
  induction cs with
  | nil => rfl
  | cons c t ih =>
      have hcs : c ≠ sep := fun hh => h (hh ▸ List.mem_cons_self c t)
      have ht : sep ∉ t := fun hh => h (List.mem_cons_of_mem c hh)
      simp only [splitOnChar, ih ht, if_neg (fun hh => hcs hh)]

theorem mem_trimChars (c : Char) (cs : List Char) (h : c ∈ trimChars cs) : c ∈ cs := by
  unfold trimChars at h
  rw [List.mem_reverse] at h
  have h2 := (List.dropWhile_sublist (l := (cs.dropWhile isWsCh).reverse) isWsCh).mem h
  rw [List.mem_reverse] at h2
  exact (List.dropWhile_sublist (l := cs) isWsCh).mem h2

theorem parse_ports_nonnumeric (tok : List Char) (hc : ',' ∉ tok) (hd : '-' ∉ tok)
    (hne : trimChars tok ≠ []) (hnum : parseU16 (trimChars tok) = none) :
    parse_ports tok = Except.error () := by
  have hdash : ¬ ((trimChars tok).contains '-' = true) := by
    simp
    exact fun hh => hd (mem_trimChars _ _ hh)
  unfold parse_ports
  rw [splitOnChar_no_sep ',' tok hc]
  unfold parsePortsParts
  rw [if_neg hne, if_neg hdash, hnum]

/-- C9: `parse_ports` rejects empty input, any non-numeric token (a
comma-free, dash-free piece that is non-empty after trimming and fails the
`u16` parse), the malformed ranges `"80-"` and `"-80"`, and the reversed
range `"90-80"`; the mixed input `"22,80-82,443"` yields exactly
`[22, 80, 81, 82, 443]` in that order. -/
theorem parse_ports_spec :
    parse_ports "".toList = Except.error () ∧
    parse_ports "80-".toList = Except.error () ∧
    parse_ports "-80".toList = Except.error () ∧
    parse_ports "90-80".toList = Except.error () ∧
    parse_ports "22,80-82,443".toList = Except.ok [22, 80, 81, 82, 443] ∧
    (∀ tok : List Char, ',' ∉ tok → '-' ∉ tok → trimChars tok ≠ [] →
      parseU16 (trimChars tok) = none → parse_ports tok = Except.error ()) :=
  ⟨by decide, by decide, by decide, by decide, by decide, parse_ports_nonnumeric⟩

/-- C9 witness: the non-numeric token `"abc"` is rejected via the universal
conjunct. -/
theorem parse_ports_spec_witness : parse_ports "abc".toList = Except.error () :=
  parse_ports_spec.2.2.2.2.2 "abc".toList (by decide) (by decide) (by decide) (by decide)

/-! ## Claim C8 -/

/-- C8 counterexample: for the banner `SSH-2.0-OpenSSH_8.2\r\n` on port
7777, the detected product is `"openssh"` — the extractor runs on the
lower-cased copy of the banner — not `"OpenSSH"` as the claim states. -/
theorem detect_ssh_banner_counterexample :
    (detect_service_from_banner ("SSH-2.0-OpenSSH_8.2\r\n".toList) 7777).map
        ServiceMatch.product = some (some "openssh".toList) ∧
    some ("openssh".toList) ≠ some ("OpenSSH".toList) := by
  decide

/-- C8 (amended): for the banner `SSH-2.0-OpenSSH_8.2\r\n` on any port
(7777 here), service identification parses the `SSH-<proto>-<product>_<version>`
format and returns service `"ssh"`, product `"openssh"` (lower-cased, since
matching runs on a lower-cased copy of the banner) and version `"8.2"`. -/
theorem detect_ssh_banner :
    detect_service_from_banner ("SSH-2.0-OpenSSH_8.2\r\n".toList) 7777 =
      some { service := "ssh".toList, product := some "openssh".toList,
             version := some "8.2".toList } := by
  decide

/-! ## Claim C6 -/

/-- C6: for every target and every way the connection attempt, banner reads
and service identification settle, `tcp_scan` returns `Except.ok` with a
`ProbeResult` — never an error.  On the success branch the state is `Open`
and a failed banner grab is absorbed (the result simply has no banner); on
the failure branch the state is exactly the failure classification. -/
theorem applyService_state (r : ProbeResult) (s : Option ServiceMatch) :
    (applyService r s).state = r.state := by
  cases s <;> rfl

theorem applyService_rtt (r : ProbeResult) (s : Option ServiceMatch) :
    (applyService r s).rtt = r.rtt := by
  cases s <;> rfl

theorem applyService_banner (r : ProbeResult) (s : Option ServiceMatch) :
    (applyService r s).banner = r.banner := by
  cases s <;> rfl

theorem applyBanner_state (r : ProbeResult) (b : Option (List Char)) :
    (applyBanner r b).state = r.state := by
  cases b <;> rfl

theorem applyBanner_rtt (r : ProbeResult) (b : Option (List Char)) :
    (applyBanner r b).rtt = r.rtt := by
  cases b <;> rfl

theorem scan_banner_of_grab_failed (port : Nat) (passive : ReadOutcome) (writeOk : Bool)
    (active : ReadOutcome) (grabTimedOut : Bool)
    (h : banner_grab passive writeOk active = Except.error ()) :
    scan_banner port passive writeOk active grabTimedOut = none := by
  unfold scan_banner
  rw [h]
  simp [grabToOption]

theorem tcp_scan_never_errors (timeout : Nat) (target : Target)
    (outcome : ConnectOutcome) (rtt : Nat) (grabTimedOut : Bool) :
    (∃ r, tcp_scan timeout target outcome rtt grabTimedOut = Except.ok r) ∧
    (∀ passive writeOk active,
      outcome = ConnectOutcome.connected passive writeOk active →
      ∃ r, tcp_scan timeout target outcome rtt grabTimedOut = Except.ok r ∧
        r.state = PortState.Open ∧ r.rtt = rtt ∧
        (banner_grab passive writeOk active = Except.error () → r.banner = none)) ∧
    (∀ ioKind msgRefused msgTimeout,
      outcome = ConnectOutcome.failed ioKind msgRefused msgTimeout →
      ∃ r, tcp_scan timeout target outcome rtt grabTimedOut = Except.ok r ∧
        r.state = classify_connect_failure ioKind msgRefused msgTimeout rtt timeout ∧
        r.rtt = rtt ∧ r.banner = none) := by
  refine ⟨?_, ?_, ?_⟩
  · cases outcome <;> exact ⟨_, rfl⟩
  · intro passive writeOk active houtcome
    subst houtcome
    refine ⟨_, rfl, ?_, ?_, ?_⟩
    · rw [applyService_state, applyBanner_state]; rfl
    · rw [applyService_rtt, applyBanner_rtt]; rfl
    · intro hgrab
      rw [applyService_banner,
        scan_banner_of_grab_failed target.port passive writeOk active grabTimedOut hgrab]
      rfl
  · intro ioKind msgRefused msgTimeout houtcome
    subst houtcome
    refine ⟨_, rfl, ?_, ?_, ?_⟩
    · rw [applyService_state]; rfl
    · rw [applyService_rtt]; rfl
    · rw [applyService_banner]; rfl

/-- C6 witness: a refused connect on 127.0.0.1:80 yields an `Ok` result in
state `Closed` with no banner. -/
theorem tcp_scan_never_errors_witness :
    ∃ r, tcp_scan 800000000 (Target.new (IpAddr.v4 127 0 0 1) 80)
        (ConnectOutcome.failed (some IoErrorKind.connectionRefused) true false)
        5000000 false = Except.ok r ∧
      r.state = classify_connect_failure (some IoErrorKind.connectionRefused) true false
        5000000 800000000 ∧
      r.rtt = 5000000 ∧ r.banner = none :=
  (tcp_scan_never_errors 800000000 (Target.new (IpAddr.v4 127 0 0 1) 80)
      (ConnectOutcome.failed (some IoErrorKind.connectionRefused) true false)
      5000000 false).2.2 (some IoErrorKind.connectionRefused) true false rfl

end Vajra
